import Mathlib

/-
Verification of the funnel-execution core of the block1-jobs repository.

The JavaScript source is shallowly embedded: browser-side effects
(element visibility, element interactions, page loads, navigation and
screenshots) are supplied by explicit oracle structures (`Env`,
`RunEnv`, `NavEnv`, `REnv`), and every control-flow decision of the
source functions is translated statement by statement.  Timeouts are
rationals because the selector resolver divides its budget by the
number of candidates (JavaScript float division).  Thrown exceptions
are `Except.error` carrying the exact message string built by the
source.

The repository holds several revisions of the same class.  Unsuffixed
names (`fillField`, `testPage`, `runFullTest`) embed the second,
hardened revision of src/test-funnel.js (lines 659-1460); the `V1`
suffix marks the first revision (lines 5-553); the `p0` prefix marks
src/unnamed/part_000 and the `p2` prefix src/unnamed/part_002.
-/

/-- Substring test matching JavaScript String.prototype.includes. -/
def charsPrefix : List Char → List Char → Bool
  | [], _ => true
  | _ :: _, [] => false
  | a :: as, b :: bs => a == b && charsPrefix as bs

/-- JavaScript s.includes(sub): does sub occur as a substring of s. -/
def includesS (s sub : String) : Bool :=
  (List.range (s.data.length + 1)).any (fun i => charsPrefix sub.data (s.data.drop i))

/-- JavaScript s.replace(pat, repl) with a non-global pattern: only the
first occurrence is replaced. -/
def jsReplaceOnce (s pat repl : String) : String :=
  match s.splitOn pat with
  | [] => s
  | [_] => s
  | a :: rest => a ++ repl ++ String.intercalate pat rest

/-- JavaScript falsiness of a possibly-missing string value: undefined
and the empty string are falsy. -/
def isFalsy : Option String → Bool
  | none => true
  | some s => s == ""

/-- Argument shape accepted by waitForElement: the source dispatches on
Array.isArray(selectors). -/
inductive SelArg where
  | single : String → SelArg
  | list : List String → SelArg

/-- The selectorArray the source builds from its argument. -/
def selArray : SelArg → List String
  | SelArg.single s => [s]
  | SelArg.list l => l

/-- A browser-interaction the field filler can perform. The value is
optional because the legacy revisions pass possibly-undefined data. -/
inductive PageOp where
  | fillOp (sel : String) (val : Option String)
  | typeOp (sel : String) (val : Option String)
  | selectOp (sel : String) (val : Option String)
  | clickOp (sel : String)
  | clearOp (sel : String)

/-- Browser oracle for one page of the funnel.  `timeToVisible sel`
gives the delay (ms) after which the element matching `sel` becomes
visible, `none` meaning never; `opError` gives the rejection message of
an element interaction, `none` meaning it resolves; `domLoadError` is
the outcome of the un-guarded waitForLoadState call in testPage;
`navResult` is the outcome of the navigateToNextPage collaborator call
made by testPage; `onFacebook` is whether page.url() contains
facebook.com during the diagnostic inspection. -/
structure Env where
  timeToVisible : String → Option ℚ
  opError : PageOp → Option String
  domLoadError : Option String
  navResult : Option String
  onFacebook : Bool

/-- Does the element matching sel become visible within tmo ms. -/
def visibleWithin (env : Env) (sel : String) (tmo : ℚ) : Bool :=
  match env.timeToVisible sel with
  | some k => k ≤ tmo
  | none => false

/-- page.waitForSelector(sel, tmo, visible): resolves when the element
appears within the timeout, otherwise rejects with a timeout error. -/
def waitForSelector (env : Env) (sel : String) (tmo : ℚ) : Except String Unit :=
  if visibleWithin env sel tmo then Except.ok () else Except.error ("Timeout waiting for " ++ sel)

/-- The for-loop body of waitForElement: each candidate is awaited with
the same slice; a rejection is swallowed and the next candidate tried. -/
def waitLoop (env : Env) : List String → ℚ → Option String
  | [], _ => none
  | s :: rest, slice =>
    match waitForSelector env s slice with
    | Except.ok _ => some s
    | Except.error _ => waitLoop env rest slice

/-- Division of a rational budget by a candidate count.  Written with
mkRat rather than the Rat field operations (which are irreducible and
would block kernel evaluation on concrete inputs); proved equal to
ordinary division by qdivNat_eq_div. -/
def qdivNat (a : ℚ) (n : Nat) : ℚ := mkRat a.num (a.den * n)

/-- waitForElement of src/test-funnel.js lines 950-964 (identical at
lines 156-170 and src/unnamed/part_002 lines 156-170): normalizes the
argument to an array, gives each candidate timeout/length, returns the
first visible candidate, and null on exhaustion. -/
def waitForElement (env : Env) (sels : SelArg) (timeout : ℚ) : Option String :=
  waitLoop env (selArray sels) (qdivNat timeout (selArray sels).length)

/-- Resolve an interaction against the browser oracle: a rejection is
the thrown error message. -/
def runOp (env : Env) (op : PageOp) : Except String Unit :=
  match env.opError op with
  | some e => Except.error e
  | none => Except.ok ()

/-- Field specification as destructured by the source: both legacy
(scalar selector) and current (selectors array) shapes, with optional
required/optional flags.  `options` records the truthiness of the
field.options key used by the gender click variant. -/
structure FieldSpec where
  fieldType : String
  selectors : Option (List String)
  selector : Option String
  action : Option String
  optional : Option Bool
  required : Option Bool
  options : Bool

/-- `field.selectors || field.selector` of the hardened fillField: a
present array (even empty) is truthy and is passed as-is, otherwise the
scalar selector is passed (waitForElement then wraps it). -/
def fieldSelectorsArg (f : FieldSpec) : SelArg :=
  match f.selectors with
  | some l => SelArg.list l
  | none => SelArg.single (f.selector.getD "")

/-- `field.optional || field.required === false` of the hardened
fillField. -/
def fieldIsOptional (f : FieldSpec) : Bool :=
  f.optional.getD false || f.required == some false

/-- `!field.optional && field.required !== false`, the isRequired check
of the hardened testPage field loop. -/
def loopIsRequired (f : FieldSpec) : Bool :=
  !(f.optional.getD false) && !(f.required == some false)

/-- Action dispatch of the hardened fillField (src/test-funnel.js lines
1073-1097): clear_and_type fills with the empty string then types;
click with a truthy options key and fieldType gender rewrites the -f--
token of the selector; an unknown action falls through to page.fill. -/
def performAction (env : Env) (f : FieldSpec) (sel v : String) : Except String Unit :=
  match f.action with
  | some "clear_and_type" => do
      runOp env (PageOp.fillOp sel (some ""))
      runOp env (PageOp.typeOp sel (some v))
  | some "type" => runOp env (PageOp.typeOp sel (some v))
  | some "select" => runOp env (PageOp.selectOp sel (some v))
  | some "click" =>
      if f.options && f.fieldType == "gender" then
        runOp env (PageOp.clickOp (jsReplaceOnce sel "-f--" ("-" ++ v.toLower ++ "--")))
      else runOp env (PageOp.clickOp sel)
  | _ => runOp env (PageOp.fillOp sel (some v))

/-- fillField of the hardened revision (src/test-funnel.js lines
1053-1099).  Missing selector: required throws, optional returns false.
Missing/empty data value: required throws, optional returns false.
Otherwise the action runs and true is returned. -/
def fillField (env : Env) (f : FieldSpec) (td : String → Option String) :
    Except String Bool :=
  match waitForElement env (fieldSelectorsArg f) 10000 with
  | none =>
    if !(fieldIsOptional f) then Except.error ("Required field not found: " ++ f.fieldType)
    else Except.ok false
  | some foundSelector =>
    let value := td f.fieldType
    if isFalsy value && !(fieldIsOptional f) then
      Except.error ("No test data for required field: " ++ f.fieldType)
    else if isFalsy value then Except.ok false
    else
      match performAction env f foundSelector (value.getD "") with
      | Except.error e => Except.error e
      | Except.ok _ => Except.ok true

/-- `selectors || [selector]` of the first-revision fillField: always a
list. -/
def fieldSelectorsArgV1 (f : FieldSpec) : SelArg :=
  match f.selectors with
  | some l => SelArg.list l
  | none => SelArg.list [f.selector.getD ""]

/-- `required && !optional` with destructuring defaults required=true,
optional=false (first revision). -/
def actuallyRequiredV1 (f : FieldSpec) : Bool :=
  f.required.getD true && !(f.optional.getD false)

/-- Action dispatch of the first-revision fillField (src/test-funnel.js
lines 264-280): an unknown action throws. -/
def v1actions (env : Env) (f : FieldSpec) (sel : String) (dv : Option String) :
    Except String Unit :=
  match f.action with
  | some "clear_and_type" => do
      runOp env (PageOp.clearOp sel)
      runOp env (PageOp.fillOp sel dv)
  | some "type" => runOp env (PageOp.fillOp sel dv)
  | some "select" => runOp env (PageOp.selectOp sel dv)
  | some "click" => runOp env (PageOp.clickOp sel)
  | some a => Except.error ("Unknown action: " ++ a)
  | none => Except.error "Unknown action: undefined"

/-- fillField of the first revision (src/test-funnel.js lines 227-297).
The whole body is wrapped in a try/catch: required rethrows, optional
returns false.  An optional field whose selector never resolves returns
true (the Optional field skipped branch).  A phone field matched by a
zip-like selector is remapped to the zipCode value. -/
def fillFieldV1 (env : Env) (f : FieldSpec) (td : String → Option String) :
    Except String Bool :=
  let req := actuallyRequiredV1 f
  let body : Except String Bool :=
    match waitForElement env (fieldSelectorsArgV1 f) (if req then 10000 else 3000) with
    | none =>
      if req then Except.error ("Required field not found: " ++ f.fieldType)
      else Except.ok true
    | some found =>
      let dv := td f.fieldType
      let dv := if f.fieldType == "phone" && includesS found "zip" then td "zipCode" else dv
      match v1actions env f found dv with
      | Except.error e => Except.error e
      | Except.ok _ => Except.ok true
  match body with
  | Except.ok b => Except.ok b
  | Except.error e => if req then Except.error e else Except.ok false

/-- Field specification of src/unnamed/part_000: a single scalar
selector and an optional flag only. -/
structure FieldSpec0 where
  fieldType : String
  selector : String
  action : Option String
  optional : Option Bool

/-- waitForElement of src/unnamed/part_000 lines 73-81: single selector,
whole timeout, boolean result. -/
def p0waitForElement (env : Env) (sel : String) (tmo : ℚ) : Bool :=
  visibleWithin env sel tmo

/-- Action dispatch of the part_000 fillField (lines 99-115): unknown
actions throw. -/
def p0actions (env : Env) (f : FieldSpec0) (td : String → Option String) :
    Except String Unit :=
  match f.action with
  | some "clear_and_type" => do
      runOp env (PageOp.clearOp f.selector)
      runOp env (PageOp.fillOp f.selector (td f.fieldType))
  | some "type" => runOp env (PageOp.fillOp f.selector (td f.fieldType))
  | some "select" => runOp env (PageOp.selectOp f.selector (td f.fieldType))
  | some "click" => runOp env (PageOp.clickOp f.selector)
  | some a => Except.error ("Unknown action: " ++ a)
  | none => Except.error "Unknown action: undefined"

/-- fillField of src/unnamed/part_000 lines 83-128.  An optional field
whose selector is not found returns true; the surrounding try/catch
rethrows for required fields and returns false for optional ones. -/
def p0fillField (env : Env) (f : FieldSpec0) (td : String → Option String) :
    Except String Bool :=
  let opt := f.optional.getD false
  let body : Except String Bool :=
    if p0waitForElement env f.selector (if opt then 3000 else 10000) then
      match p0actions env f td with
      | Except.error e => Except.error e
      | Except.ok _ => Except.ok true
    else
      if opt then Except.ok true
      else Except.error ("Required field not found: " ++ f.fieldType ++ " (" ++ f.selector ++ ")")
  match body with
  | Except.ok b => Except.ok b
  | Except.error e => if !opt then Except.error e else Except.ok false

/-- pageDetection field of a PageSpec. -/
structure PageDetection where
  checkForElement : Option String

/-- Navigation specification as destructured by the source revisions. -/
structure NavigationSpec where
  selector : Option String
  selectors : Option (List String)
  waitAfterClick : Option ℚ
  waitForUrlChange : Option Bool
  retryIfNoNavigation : Option Bool
  expectNewTab : Option Bool

/-- Page specification as destructured by testPage, with the
destructuring defaults fields = [] and optional = false left to the
use sites. -/
structure PageConfig where
  pageNumber : Int
  pageName : String
  pageDetection : Option PageDetection
  fields : Option (List FieldSpec)
  navigation : Option NavigationSpec
  optional : Option Bool

/-- The funnel configuration: the ordered page list reached through
config.funnel.pages. -/
structure Config where
  pages : List PageConfig

/-- Truthiness of pageDetection?.checkForElement: absent detection,
absent key, or an empty string all skip the detection block. -/
def detectionSel (pc : PageConfig) : Option String :=
  match pc.pageDetection with
  | none => none
  | some d =>
    match d.checkForElement with
    | none => none
    | some s => if s == "" then none else some s

/-- The look-ahead of testPage: find the page whose pageNumber equals
pageNumber + 1 (findIndex followed by indexing). -/
def findNextPage (cfg : Config) (n : Int) : Option PageConfig :=
  cfg.pages.find? (fun p => p.pageNumber == n + 1)

/-- The per-page result record built by testPage. -/
structure PageResult where
  pageNumber : Int
  pageName : String
  success : Bool
  fieldsCompleted : Nat
  totalFields : Nat
  errors : List String
  skipped : Bool

/-- Observable actions of a testPage execution, used to state that the
skip path touches neither fields nor navigation. -/
inductive Ev where
  | fillAttempt (fieldType : String)
  | navAttempt

/-- Outcome of one testPage call: the returned or thrown result, the
final value of the local pageResult, the actions performed, and what
was pushed onto this.testResults.pageResults during the call. -/
structure TestPageOut where
  result : Except String PageResult
  pageResult : PageResult
  events : List Ev
  pushed : List PageResult

/-- The catch block of testPage: append the message to
pageResult.errors and rethrow; nothing is pushed. -/
def mkThrown (pr : PageResult) (e : String) (evs : List Ev) : TestPageOut :=
  { result := Except.error e
    pageResult := { pr with errors := pr.errors ++ [e] }
    events := evs
    pushed := [] }

/-- The optional-page skip return of testPage: skipped and success set,
result pushed and returned. -/
def mkSkip (pr0 : PageResult) : TestPageOut :=
  let pr := { pr0 with skipped := true, success := true }
  { result := Except.ok pr, pageResult := pr, events := [], pushed := [pr] }

/-- The normal return of testPage: success set, result pushed and
returned. -/
def mkDone (pr : PageResult) (evs : List Ev) : TestPageOut :=
  let pr2 := { pr with success := true }
  { result := Except.ok pr2, pageResult := pr2, events := evs, pushed := [pr2] }

/-- The field loop of testPage (src/test-funnel.js lines 1188-1199):
each fillField success increments fieldsCompleted; an error is recorded
as fieldType-prefixed entry and rethrown only when the field is
required, aborting the loop. -/
def fieldsLoop (env : Env) (td : String → Option String) :
    List FieldSpec → PageResult → PageResult × Option String × List Ev
  | [], pr => (pr, none, [])
  | f :: rest, pr =>
    match fillField env f td with
    | Except.ok true =>
      let out := fieldsLoop env td rest { pr with fieldsCompleted := pr.fieldsCompleted + 1 }
      (out.1, out.2.1, Ev.fillAttempt f.fieldType :: out.2.2)
    | Except.ok false =>
      let out := fieldsLoop env td rest pr
      (out.1, out.2.1, Ev.fillAttempt f.fieldType :: out.2.2)
    | Except.error msg =>
      let pr1 := { pr with errors := pr.errors ++ [f.fieldType ++ ": " ++ msg] }
      if loopIsRequired f then (pr1, some msg, [Ev.fillAttempt f.fieldType])
      else
        let out := fieldsLoop env td rest pr1
        (out.1, out.2.1, Ev.fillAttempt f.fieldType :: out.2.2)

/-- testPage after a passed (or absent) detection check: run the field
loop, then navigation when present and the page was not skipped, then
mark success. -/
def afterDetection (env : Env) (pc : PageConfig) (td : String → Option String)
    (pr0 : PageResult) (fields : List FieldSpec) : TestPageOut :=
  match fieldsLoop env td fields pr0 with
  | (pr1, some e, evs) => mkThrown pr1 e evs
  | (pr1, none, evs) =>
    match pc.navigation with
    | some _ =>
      if !pr1.skipped then
        match env.navResult with
        | some e => mkThrown pr1 e (evs ++ [Ev.navAttempt])
        | none => mkDone pr1 (evs ++ [Ev.navAttempt])
      else mkDone pr1 evs
    | none => mkDone pr1 evs

/-- The pageResult literal built at the top of testPage. -/
def initPageResult (pc : PageConfig) : PageResult :=
  { pageNumber := pc.pageNumber
    pageName := pc.pageName
    success := false
    fieldsCompleted := 0
    totalFields := (pc.fields.getD []).length
    errors := []
    skipped := false }

/-- testPage of the hardened revision (src/test-funnel.js lines
1120-1217).  The unguarded domcontentloaded wait can throw; the
networkidle wait is absorbed.  A present detection selector is awaited
with 5000 ms when the page is optional, 15000 ms otherwise.  When an
optional page is not detected the next page (by pageNumber + 1) is
probed with 5000 ms and the page is classified skipped either way,
ending processing before fields and navigation.  A required page that
is not detected throws, with a dedicated message when the inspection
reports the browser is still on facebook. -/
def testPage (env : Env) (cfg : Config) (pc : PageConfig) (td : String → Option String) :
    TestPageOut :=
  let fields := pc.fields.getD []
  let pr0 := initPageResult pc
  match env.domLoadError with
  | some e => mkThrown pr0 e []
  | none =>
    match detectionSel pc with
    | none => afterDetection env pc td pr0 fields
    | some sel =>
      match waitForElement env (SelArg.list [sel])
          (if pc.optional.getD false then 5000 else 15000) with
      | some _ => afterDetection env pc td pr0 fields
      | none =>
        if pc.optional.getD false then
          match findNextPage cfg pc.pageNumber with
          | some np =>
            match detectionSel np with
            | some nsel =>
              match waitForElement env (SelArg.list [nsel]) 5000 with
              | some _ => mkSkip pr0
              | none => mkSkip pr0
            | none => mkSkip pr0
          | none => mkSkip pr0
        else
          if env.onFacebook then
            mkThrown pr0
              ("Still on Facebook page - navigation from page " ++
                toString (pc.pageNumber - 1) ++ " failed") []
          else
            mkThrown pr0 ("Page detection failed: " ++ sel ++ " not found") []

/-- The aggregate this.testResults object (timing metrics omitted). -/
structure TestResults where
  success : Bool
  errors : List String
  pageResults : List PageResult

/-- Oracle for a whole run: a per-iteration page oracle, the outcomes of
the load/init prelude and of page.goto, whether this.page is truthy on
the failure path, and the outcome of the diagnostic screenshot. -/
structure RunEnv where
  envAt : Nat → Env
  initError : Option String
  gotoError : Option String
  pageExists : Bool
  screenshotError : Option String

/-- Outcome of runFullTest: the final testResults, the normal return or
rethrown error, and whether the failure path attempted a screenshot
(its own failure is swallowed). -/
structure RunOut where
  testResults : TestResults
  outcome : Except String Unit
  screenshotAttempted : Bool

/-- The catch block of runFullTest (src/test-funnel.js lines 1287-1308):
mark failure, record the message, best-effort screenshot when this.page
is truthy, rethrow. -/
def mkRunFailure (renv : RunEnv) (acc : TestResults) (e : String) : RunOut :=
  { testResults := { acc with success := false, errors := acc.errors ++ [e] }
    outcome := Except.error e
    screenshotAttempted := renv.pageExists }

/-- The sequential page loop of runFullTest (src/test-funnel.js lines
1249-1272) with its previousPageSkipped look-ahead: after a skipped
page, a 3000 ms probe of the next page's detection selector decides
only how previousPageSkipped is reset; either way testPage runs on the
page and a thrown error aborts the loop. -/
def pagesLoop (renv : RunEnv) (cfg : Config) (td : String → Option String) :
    List PageConfig → Nat → Bool → TestResults → TestResults × Option String
  | [], _, _, acc => (acc, none)
  | pc :: rest, i, prevSkipped, acc =>
    let env := renv.envAt i
    let preDetected : Bool :=
      match (if prevSkipped then detectionSel pc else none) with
      | some sel => (waitForElement env (SelArg.list [sel]) 3000).isSome
      | none => false
    let out := testPage env cfg pc td
    let acc2 := { acc with pageResults := acc.pageResults ++ out.pushed }
    match out.result with
    | Except.error e => (acc2, some e)
    | Except.ok r =>
      if preDetected then pagesLoop renv cfg td rest (i + 1) false acc2
      else pagesLoop renv cfg td rest (i + 1) r.skipped acc2

/-- runFullTest of the hardened revision (src/test-funnel.js lines
1219-1312): prelude failures and the first thrown page error reach the
catch block; otherwise success is set after the loop. -/
def runFullTest (renv : RunEnv) (cfg : Config) (td : String → Option String) : RunOut :=
  let acc0 : TestResults := { success := false, errors := [], pageResults := [] }
  match renv.initError with
  | some e => mkRunFailure renv acc0 e
  | none =>
    match renv.gotoError with
    | some e => mkRunFailure renv acc0 e
    | none =>
      match pagesLoop renv cfg td cfg.pages 0 false acc0 with
      | (acc, none) =>
        { testResults := { acc with success := true }
          outcome := Except.ok ()
          screenshotAttempted := false }
      | (acc, some e) => mkRunFailure renv acc e

/-- saveResults of src/test-funnel.js lines 1357-1364: unless the given
path contains the substring browser, the result file name is rebuilt
from the BROWSER environment variable (default chromium) and
Date.now(), discarding the argument. -/
def saveResultsName (outputPath : String) (browserEnv : Option String) (now : Nat) : String :=
  if includesS outputPath "browser" then outputPath
  else "test-results-" ++ browserEnv.getD "chromium" ++ "-" ++ toString now ++ ".json"

/-- runTest (src/test-funnel.js lines 1445-1453) calls saveResults()
after a successful run and saveResults(failed-test-results.json) after
a failed one. -/
def runTestSavedName (failed : Bool) (browserEnv : Option String) (now : Nat) : String :=
  if failed then saveResultsName "failed-test-results.json" browserEnv now
  else saveResultsName "test-results.json" browserEnv now

/-- Browser oracle for one navigateToNextPage call: the page URL at
entry, the URL observed at the k-th post-click check, the outcome of
the k-th click (indexed in click order), and whether the facebook
new-tab race succeeds. -/
structure NavEnv where
  wenv : Env
  currentUrl : String
  urlAt : Nat → String
  clickError : Nat → Option String
  fbNewTab : Bool

/-- The waitForUrlChange while-loop shared verbatim by the first
revision (src/test-funnel.js lines 375-389) and part_000 (lines
149-163): at each retry the URL is re-read after a 2000 ms wait; an
unchanged URL triggers a re-click while retries < maxRetries - 1 and
retryIfNoNavigation is set.  The result is (urlChanged, clicks so far);
a click rejection propagates.  The fuel argument equals
maxRetries - retries at every call, so the fuel-exhausted branch
coincides with the loop guard failing. -/
def urlLoopAux (env : NavEnv) (currentUrl : String) (retryFlag : Bool) (maxRetries : Nat) :
    Nat → Nat → Nat → Except String Bool × Nat
  | 0, _, clicks => (Except.ok false, clicks)
  | fuel + 1, retries, clicks =>
    if retries < maxRetries then
      if env.urlAt retries ≠ currentUrl then (Except.ok true, clicks)
      else if retryFlag && decide (retries < maxRetries - 1) then
        match env.clickError clicks with
        | some e => (Except.error e, clicks + 1)
        | none => urlLoopAux env currentUrl retryFlag maxRetries fuel (retries + 1) (clicks + 1)
      else urlLoopAux env currentUrl retryFlag maxRetries fuel (retries + 1) clicks
    else (Except.ok false, clicks)

/-- `selectors || [selector]` of the first-revision navigateToNextPage. -/
def navSelectorsArg (nav : NavigationSpec) : SelArg :=
  match nav.selectors with
  | some l => SelArg.list l
  | none => SelArg.list [nav.selector.getD ""]

/-- The waitForUrlChange block of the first revision (src/test-funnel.js
lines 370-394): maxRetries is 3 with retryIfNoNavigation and 1 without;
after the loop, a still-unchanged URL throws Expected URL change only
when the origin URL is not on facebook.com. -/
def urlChangePhaseV1 (env : NavEnv) (nav : NavigationSpec) (currentUrl : String)
    (clicks : Nat) : Except String Bool × Nat :=
  if nav.waitForUrlChange.getD false then
    let retryFlag := nav.retryIfNoNavigation.getD false
    let maxRetries := if retryFlag then 3 else 1
    match urlLoopAux env currentUrl retryFlag maxRetries maxRetries 0 clicks with
    | (Except.error e, c) => (Except.error e, c)
    | (Except.ok urlChanged, c) =>
      if !urlChanged && nav.waitForUrlChange.getD false && !(includesS currentUrl "facebook.com") then
        (Except.error "Expected URL change but none occurred", c)
      else (Except.ok true, c)
  else (Except.ok true, clicks)

/-- navigateToNextPage of the first revision (src/test-funnel.js lines
299-400), returning the outcome together with the number of clicks
performed.  On a facebook origin the element is clicked and a new tab
awaited; when the new-tab race succeeds the function returns early,
otherwise it falls through to the regular click path (a second click)
and then the URL-change verification. -/
def navigateToNextPageV1 (env : NavEnv) (nav : NavigationSpec) : Except String Bool × Nat :=
  match waitForElement env.wenv (navSelectorsArg nav) 10000 with
  | none => (Except.error "Navigation element not found", 0)
  | some _ =>
    if includesS env.currentUrl "facebook.com" then
      match env.clickError 0 with
      | some e => (Except.error e, 1)
      | none =>
        if env.fbNewTab then (Except.ok true, 1)
        else
          match env.clickError 1 with
          | some e => (Except.error e, 2)
          | none => urlChangePhaseV1 env nav env.currentUrl 2
    else
      match env.clickError 0 with
      | some e => (Except.error e, 1)
      | none => urlChangePhaseV1 env nav env.currentUrl 1

/-- navigateToNextPage of src/unnamed/part_000 lines 130-175: a single
scalar selector is clicked without a waitForElement probe, and the
still-unchanged check (line 165) throws Expected URL change regardless
of the origin host. -/
def p0navigateToNextPage (env : NavEnv) (nav : NavigationSpec) : Except String Bool × Nat :=
  match env.clickError 0 with
  | some e => (Except.error e, 1)
  | none =>
    if nav.waitForUrlChange.getD false then
      let retryFlag := nav.retryIfNoNavigation.getD false
      let maxRetries := if retryFlag then 3 else 1
      match urlLoopAux env env.currentUrl retryFlag maxRetries maxRetries 0 1 with
      | (Except.error e, c) => (Except.error e, c)
      | (Except.ok urlChanged, c) =>
        if !urlChanged && nav.waitForUrlChange.getD false then
          (Except.error "Expected URL change but none occurred", c)
        else (Except.ok true, c)
    else (Except.ok true, 1)

/-- Browser oracle for handleFacebookRedirectsAggressively: the URL at
entry, the URL read after the settle wait of iteration k, the outcome
of the redirect-link strategy at iteration k (some u means a link to
the target domain was found and page.goto landed on u; none covers no
link found, an evaluation error, or a goto rejection, all absorbed),
the elapsed wall-clock milliseconds at the k-th guard check, and the
URL re-read after the loop. -/
structure REnv where
  initialUrl : String
  natUrl : Nat → String
  linkResult : Nat → Option String
  elapsed : Nat → Nat
  postLoopUrl : String

/-- The while guard of src/unnamed/part_002 lines 529-532 without its
hop and clock conjuncts: still on a facebook URL and not on the target
domain. -/
def wrapperGuard (url : String) : Bool :=
  (includesS url "l.facebook.com" || includesS url "facebook.com") &&
    !(includesS url "opph3hftrk.com")

/-- The redirect while-loop of src/unnamed/part_002 lines 529-587,
fuel-indexed; none marks fuel exhaustion, which the termination lemma
rules out for fuel 16.  A natural redirect updates finalUrl and breaks
early only when it reaches the target domain; otherwise the link
strategy may break; redirectCount increments once per iteration. -/
def redirectLoop (env : REnv) (maxWaitTime : Nat) :
    Nat → String → Nat → Option (String × Nat)
  | 0, _, _ => none
  | fuel + 1, finalUrl, count =>
    if wrapperGuard finalUrl && decide (count < 15) && decide (env.elapsed count < maxWaitTime) then
      let cur := env.natUrl count
      if cur ≠ finalUrl then
        if includesS cur "opph3hftrk.com" then some (cur, count)
        else redirectLoop env maxWaitTime fuel cur (count + 1)
      else
        match env.linkResult count with
        | some u => some (u, count)
        | none => redirectLoop env maxWaitTime fuel finalUrl (count + 1)
    else some (finalUrl, count)

/-- handleFacebookRedirectsAggressively of src/unnamed/part_002 lines
512-607: run the redirect loop (maxRedirects = 15), re-read the URL,
and throw the redirect-chain error when it is still a facebook URL that
is not on the target domain.  The outer Option is fuel exhaustion of
the embedding, proved impossible. -/
def handleFacebookRedirectsAggressively (env : REnv) (maxWaitTime : Nat) :
    Option (Except String String × Nat) :=
  match redirectLoop env maxWaitTime 16 env.initialUrl 0 with
  | none => none
  | some (_, count) =>
    if !(includesS env.postLoopUrl "opph3hftrk.com") && includesS env.postLoopUrl "facebook.com" then
      some (Except.error "Facebook redirect chain did not reach target domain", count)
    else some (Except.ok env.postLoopUrl, count)

/-- The detection step of testPage succeeds: either no detection
selector is configured, or the configured selector resolves within the
budget testPage uses for it. -/
def detectionPasses (env : Env) (pc : PageConfig) : Prop :=
  match detectionSel pc with
  | none => True
  | some sel =>
    ∃ s, waitForElement env (SelArg.list [sel])
      (if pc.optional.getD false then 5000 else 15000) = some s

/-- Empty test-data record. -/
def tdEmpty : String → Option String := fun _ => none

/-- Concrete oracle for the resolver witnesses: only the selector named
second becomes visible, after 400 ms. -/
def envWaitW : Env :=
  { timeToVisible := fun s => if s == "#zip" then some 400 else none
    opError := fun _ => none
    domLoadError := none
    navResult := none
    onFacebook := false }

/-- Oracle in which no selector ever becomes visible and everything
else is benign. -/
def envNoneVis : Env :=
  { timeToVisible := fun _ => none
    opError := fun _ => none
    domLoadError := none
    navResult := none
    onFacebook := false }

/-- Oracle for the optional-page skip witness: only the next page's
detection selector is visible, and the navigation collaborator would
fail if it were invoked. -/
def envC1 : Env :=
  { timeToVisible := fun s => if s == "#page3" then some 100 else none
    opError := fun _ => none
    domLoadError := none
    navResult := some "Navigation failed: no element"
    onFacebook := false }

/-- A field of the optional page of the skip witness; its selector is
not visible, so attempting it would throw. -/
def fZip : FieldSpec :=
  { fieldType := "zipCode", selectors := some ["#zip"], selector := none
    action := some "type", optional := none, required := none, options := false }

/-- A navigation specification used by the witness pages. -/
def navC1 : NavigationSpec :=
  { selector := none, selectors := some ["#continue"], waitAfterClick := some 2000
    waitForUrlChange := some false, retryIfNoNavigation := some false
    expectNewTab := some false }

/-- The optional page of the skip witness. -/
def pcC1 : PageConfig :=
  { pageNumber := 2, pageName := "Optional Offer"
    pageDetection := some { checkForElement := some "#offer" }
    fields := some [fZip], navigation := some navC1, optional := some true }

/-- The page following the optional page in the skip witness. -/
def npC1 : PageConfig :=
  { pageNumber := 3, pageName := "Contact"
    pageDetection := some { checkForElement := some "#page3" }
    fields := some [], navigation := none, optional := none }

/-- Two-page funnel for the skip witness. -/
def cfgC1 : Config := ⟨[pcC1, npC1]⟩

/-- A required first-name field whose selectors never resolve under
envNoneVis. -/
def fReq : FieldSpec :=
  { fieldType := "firstName", selectors := some ["#firstName", "input#fname"], selector := none
    action := some "type", optional := none, required := some true, options := false }

/-- A one-field page without detection, used by the required-field
failure witnesses. -/
def pcC2 : PageConfig :=
  { pageNumber := 1, pageName := "Landing", pageDetection := none
    fields := some [fReq], navigation := some navC1, optional := none }

/-- One-page funnel for the required-field failure witnesses. -/
def cfgC2 : Config := ⟨[pcC2]⟩

/-- Run oracle for the failure-path witnesses: prelude succeeds, the
page handle exists, and the diagnostic screenshot itself fails. -/
def renvC4 : RunEnv :=
  { envAt := fun _ => envNoneVis
    initError := none
    gotoError := none
    pageExists := true
    screenshotError := some "screenshot timeout" }

/-- An optional comments field (array-selector shape) with no matching
element and no data. -/
def f5 : FieldSpec :=
  { fieldType := "comments", selectors := some ["#comments"], selector := none
    action := some "type", optional := some true, required := none, options := false }

/-- The same optional comments field in the part_000 scalar shape. -/
def g5 : FieldSpec0 :=
  { fieldType := "comments", selector := "#comments", action := some "type"
    optional := some true }

/-- Redirect oracle that never leaves the facebook wrapper: every poll
reads the same wrapper URL, no redirect link is ever found, and the
post-loop URL is still a facebook URL. -/
def envR6 : REnv :=
  { initialUrl := "https://l.facebook.com/l.php?u=https%3A%2F%2Fexample.com"
    natUrl := fun _ => "https://l.facebook.com/l.php?u=https%3A%2F%2Fexample.com"
    linkResult := fun _ => none
    elapsed := fun k => 3000 * k
    postLoopUrl := "https://m.facebook.com/flx/warn/" }

/-- Navigation spec with URL-change verification and click retry
enabled. -/
def navW : NavigationSpec :=
  { selector := none, selectors := some ["#zip"], waitAfterClick := some 2000
    waitForUrlChange := some true, retryIfNoNavigation := some true
    expectNewTab := some false }

/-- Navigation oracle with a non-facebook origin whose URL never
changes and whose clicks all succeed. -/
def envNavW : NavEnv :=
  { wenv := envWaitW
    currentUrl := "https://offers.example.com/step1"
    urlAt := fun _ => "https://offers.example.com/step1"
    clickError := fun _ => none
    fbNewTab := false }

/-- Navigation oracle with a facebook wrapper origin whose URL never
changes and whose clicks all succeed. -/
def envNavFB : NavEnv :=
  { wenv := envWaitW
    currentUrl := "https://l.facebook.com/l.php?u=abc"
    urlAt := fun _ => "https://l.facebook.com/l.php?u=abc"
    clickError := fun _ => none
    fbNewTab := false }

lemma waitLoop_none_iff (env : Env) (l : List String) (q : ℚ) :
    waitLoop env l q = none ↔ ∀ s ∈ l, visibleWithin env s q = false := by
  induction l with
  | nil => simp [waitLoop]
  | cons a l ih =>
    cases h : visibleWithin env a q with
    | true => simp [waitLoop, waitForSelector, h]
    | false => simp [waitLoop, waitForSelector, h, ih]

lemma waitLoop_some_iff (env : Env) (l : List String) (q : ℚ) (s : String) :
    waitLoop env l q = some s ↔
      ∃ l1 l2, l = l1 ++ s :: l2 ∧ (∀ t ∈ l1, visibleWithin env t q = false) ∧
        visibleWithin env s q = true := by
  induction l with
  | nil =>
    simp only [waitLoop]
    constructor
    · intro h; exact absurd h (by simp)
    · rintro ⟨l1, l2, h, -, -⟩
      cases l1 <;> simp_all
  | cons a l ih =>
    cases h : visibleWithin env a q with
    | true =>
      simp only [waitLoop, waitForSelector, h, if_pos, Option.some.injEq]
      constructor
      · rintro rfl
        exact ⟨[], l, rfl, by simp, h⟩
      · rintro ⟨l1, l2, heq, hall, hvis⟩
        cases l1 with
        | nil =>
          simp only [List.nil_append, List.cons.injEq] at heq
          exact heq.1
        | cons b l1 =>
          simp only [List.cons_append, List.cons.injEq] at heq
          have hb : visibleWithin env b q = false := hall b (by simp)
          rw [heq.1] at h
          rw [h] at hb
          exact absurd hb (by simp)
    | false =>
      simp only [waitLoop, waitForSelector, h, if_neg, Bool.false_eq_true, not_false_iff,
        if_false]
      rw [ih]
      constructor
      · rintro ⟨l1, l2, rfl, hall, hvis⟩
        refine ⟨a :: l1, l2, rfl, ?_, hvis⟩
        intro t ht
        rcases List.mem_cons.mp ht with rfl | ht
        · exact h
        · exact hall t ht
      · rintro ⟨l1, l2, heq, hall, hvis⟩
        cases l1 with
        | nil =>
          simp only [List.nil_append, List.cons.injEq] at heq
          rw [← heq.1] at hvis
          rw [h] at hvis
          exact absurd hvis (by simp)
        | cons b l1 =>
          simp only [List.cons_append, List.cons.injEq] at heq
          refine ⟨l1, l2, heq.2, ?_, hvis⟩
          intro t ht
          exact hall t (by simp [ht])

lemma waitLoop_mem (env : Env) (l : List String) (q : ℚ) (s : String)
    (h : waitLoop env l q = some s) : s ∈ l := by
  rcases (waitLoop_some_iff env l q s).mp h with ⟨l1, l2, rfl, -, -⟩
  simp

lemma qdivNat_eq_div (a : ℚ) (n : Nat) : qdivNat a n = a / (n : ℚ) := by
  unfold qdivNat
  rcases Nat.eq_zero_or_pos n with rfl | hn
  · simp [Rat.mkRat_eq_div]
  · rw [Rat.mkRat_eq_div]
    push_cast
    rw [div_mul_eq_div_div]
    congr 1
    exact Rat.num_div_den a

/-- C3: the selector resolver splits the budget B evenly into slices of
B/n over the n candidates, tries them strictly in list order, returns
the first candidate whose element becomes visible within its slice
(everything before it was not visible within its slice), and on
exhaustion of all candidates returns null rather than raising. -/
theorem waitForElement_splits_budget_first_visible (env : Env) (cands : List String) (B : ℚ) :
    qdivNat B cands.length = B / (cands.length : ℚ) ∧
    (waitForElement env (SelArg.list cands) B = none ↔
      ∀ s ∈ cands, visibleWithin env s (qdivNat B cands.length) = false) ∧
    (∀ s : String, waitForElement env (SelArg.list cands) B = some s ↔
      ∃ pre post, cands = pre ++ s :: post ∧
        (∀ t ∈ pre, visibleWithin env t (qdivNat B cands.length) = false) ∧
        visibleWithin env s (qdivNat B cands.length) = true) := by
  refine ⟨qdivNat_eq_div B cands.length, ?_, ?_⟩
  · simpa [waitForElement, selArray] using
      waitLoop_none_iff env cands (qdivNat B cands.length)
  · intro s
    simpa [waitForElement, selArray] using
      waitLoop_some_iff env cands (qdivNat B cands.length) s

/-- C10: waitForElement is total: whatever the candidate argument shape,
it never propagates a candidate failure; the result is null or one of
the given candidates; the empty list yields null immediately; and when
every candidate's waitForSelector rejects, the result is null, not an
exception. -/
theorem waitForElement_total (env : Env) (arg : SelArg) (tmo : ℚ) :
    (waitForElement env arg tmo = none ∨
      ∃ s ∈ selArray arg, waitForElement env arg tmo = some s) ∧
    (waitForElement env (SelArg.list []) tmo = none) ∧
    ((∀ s ∈ selArray arg,
        (waitForSelector env s (qdivNat tmo (selArray arg).length)).isOk = false) →
      waitForElement env arg tmo = none) := by
  refine ⟨?_, by simp [waitForElement, selArray, waitLoop], ?_⟩
  · cases h : waitForElement env arg tmo with
    | none => exact Or.inl rfl
    | some s =>
      refine Or.inr ⟨s, ?_, rfl⟩
      exact waitLoop_mem env (selArray arg) _ s h
  · intro hall
    rw [waitForElement, waitLoop_none_iff]
    intro s hs
    have := hall s hs
    rw [waitForSelector] at this
    cases hv : visibleWithin env s (qdivNat tmo (selArray arg).length) with
    | false => rfl
    | true => rw [if_pos (by simp [hv])] at this; simp [Except.isOk, Except.toBool] at this

theorem waitForElement_total_witness :
    (∀ s ∈ selArray (SelArg.list ["#a", "#b"]),
      (waitForSelector envWaitW s
        (qdivNat 1000 (selArray (SelArg.list ["#a", "#b"])).length)).isOk = false) ∧
    waitForElement envWaitW (SelArg.list ["#a", "#b"]) 1000 = none :=
  ⟨by decide, (waitForElement_total envWaitW (SelArg.list ["#a", "#b"]) 1000).2.2 (by decide)⟩

lemma loopIsRequired_eq_not_isOptional (f : FieldSpec) :
    loopIsRequired f = !(fieldIsOptional f) := by
  unfold loopIsRequired fieldIsOptional
  cases f.optional.getD false <;> cases f.required == some false <;> rfl

lemma fillField_required_not_found (env : Env) (f : FieldSpec) (td : String → Option String)
    (hreq : loopIsRequired f = true)
    (hnf : waitForElement env (fieldSelectorsArg f) 10000 = none) :
    fillField env f td = Except.error ("Required field not found: " ++ f.fieldType) := by
  have hopt : fieldIsOptional f = false := by
    rw [loopIsRequired_eq_not_isOptional] at hreq
    cases h : fieldIsOptional f
    · rfl
    · rw [h] at hreq; exact absurd hreq (by simp)
  simp [fillField, hnf, hopt]

lemma actuallyRequiredV1_of_isOptional (f : FieldSpec)
    (hopt : fieldIsOptional f = true) : actuallyRequiredV1 f = false := by
  unfold fieldIsOptional at hopt
  unfold actuallyRequiredV1
  cases hO : f.optional.getD false with
  | true => simp [hO]
  | false =>
    rw [hO] at hopt
    simp only [Bool.false_or] at hopt
    rcases hR : f.required with - | b
    · rw [hR] at hopt; exact absurd hopt (by simp)
    · cases b
      · simp [hR]
      · rw [hR] at hopt; exact absurd hopt (by simp)

lemma fieldsLoop_pres (env : Env) (td : String → Option String) :
    ∀ (fs : List FieldSpec) (pr : PageResult),
      (fieldsLoop env td fs pr).1.skipped = pr.skipped ∧
      (fieldsLoop env td fs pr).1.totalFields = pr.totalFields ∧
      (fieldsLoop env td fs pr).1.pageNumber = pr.pageNumber ∧
      (fieldsLoop env td fs pr).1.pageName = pr.pageName ∧
      (fieldsLoop env td fs pr).1.success = pr.success ∧
      (fieldsLoop env td fs pr).1.fieldsCompleted ≤ pr.fieldsCompleted + fs.length
  | [], pr => by simp [fieldsLoop]
  | f :: rest, pr => by
    cases hf : fillField env f td with
    | ok b =>
      cases b with
      | true =>
        have ih := fieldsLoop_pres env td rest
          { pr with fieldsCompleted := pr.fieldsCompleted + 1 }
        simp only [fieldsLoop, hf] at *
        refine ⟨ih.1, ih.2.1, ih.2.2.1, ih.2.2.2.1, ih.2.2.2.2.1, ?_⟩
        have := ih.2.2.2.2.2
        simp only [List.length_cons]
        omega
      | false =>
        have ih := fieldsLoop_pres env td rest pr
        simp only [fieldsLoop, hf] at *
        refine ⟨ih.1, ih.2.1, ih.2.2.1, ih.2.2.2.1, ih.2.2.2.2.1, ?_⟩
        have := ih.2.2.2.2.2
        simp only [List.length_cons]
        omega
    | error msg =>
      cases hr : loopIsRequired f with
      | true => simp [fieldsLoop, hf, hr]
      | false =>
        have ih := fieldsLoop_pres env td rest
          { pr with errors := pr.errors ++ [f.fieldType ++ ": " ++ msg] }
        simp only [fieldsLoop, hf, hr, Bool.false_eq_true, if_false] at *
        refine ⟨ih.1, ih.2.1, ih.2.2.1, ih.2.2.2.1, ih.2.2.2.2.1, ?_⟩
        have := ih.2.2.2.2.2
        simp only [List.length_cons]
        omega

lemma fieldsLoop_abort (env : Env) (td : String → Option String) (f : FieldSpec)
    (fs2 : List FieldSpec) (m : String)
    (hf : fillField env f td = Except.error m) (hreq : loopIsRequired f = true) :
    ∀ (fs1 : List FieldSpec) (pr : PageResult),
      (∀ g ∈ fs1, loopIsRequired g = true → ∃ b, fillField env g td = Except.ok b) →
      (fieldsLoop env td (fs1 ++ f :: fs2) pr).2.1 = some m ∧
      (f.fieldType ++ ": " ++ m) ∈ (fieldsLoop env td (fs1 ++ f :: fs2) pr).1.errors
  | [], pr => by
    intro _
    simp [fieldsLoop, hf, hreq]
  | g :: gs, pr => by
    intro hall
    have htail : ∀ x ∈ gs, loopIsRequired x = true → ∃ b, fillField env x td = Except.ok b :=
      fun x hx => hall x (by simp [hx])
    cases hg : fillField env g td with
    | ok b =>
      cases b with
      | true =>
        have ih := fieldsLoop_abort env td f fs2 m hf hreq gs
          { pr with fieldsCompleted := pr.fieldsCompleted + 1 } htail
        simpa [fieldsLoop, hg] using ih
      | false =>
        have ih := fieldsLoop_abort env td f fs2 m hf hreq gs pr htail
        simpa [fieldsLoop, hg] using ih
    | error e =>
      cases hgr : loopIsRequired g with
      | true =>
        obtain ⟨b, hb⟩ := hall g (by simp) hgr
        rw [hg] at hb
        exact absurd hb (by simp)
      | false =>
        have ih := fieldsLoop_abort env td f fs2 m hf hreq gs
          { pr with errors := pr.errors ++ [g.fieldType ++ ": " ++ e] } htail
        simpa [fieldsLoop, hg, hgr] using ih

lemma afterDetection_inv (env : Env) (pc : PageConfig) (td : String → Option String)
    (pr0 : PageResult) (fields : List FieldSpec)
    (h0 : pr0.fieldsCompleted = 0) (h1 : pr0.totalFields = fields.length)
    (h2 : pr0.skipped = false) :
    ((afterDetection env pc td pr0 fields).pageResult.skipped = true →
      (afterDetection env pc td pr0 fields).pageResult.success = true) ∧
    (afterDetection env pc td pr0 fields).pageResult.fieldsCompleted ≤
      (afterDetection env pc td pr0 fields).pageResult.totalFields ∧
    (afterDetection env pc td pr0 fields).pageResult.totalFields = fields.length ∧
    ∀ r ∈ (afterDetection env pc td pr0 fields).pushed,
      (r.skipped = true → r.success = true) ∧ r.fieldsCompleted ≤ r.totalFields := by
  have hp := fieldsLoop_pres env td fields pr0
  rcases hL : fieldsLoop env td fields pr0 with ⟨pr1, ab, evs⟩
  obtain ⟨hsk, htf, -, -, -, hfc⟩ :
      pr1.skipped = pr0.skipped ∧ pr1.totalFields = pr0.totalFields ∧
      pr1.pageNumber = pr0.pageNumber ∧ pr1.pageName = pr0.pageName ∧
      pr1.success = pr0.success ∧
      pr1.fieldsCompleted ≤ pr0.fieldsCompleted + fields.length := by
    rw [hL] at hp; exact hp
  rw [h2] at hsk
  rw [h1] at htf
  rw [h0, Nat.zero_add] at hfc
  have hb : pr1.fieldsCompleted ≤ pr1.totalFields := by rw [htf]; exact hfc
  unfold afterDetection
  rw [hL]
  cases ab with
  | some e =>
    refine ⟨fun h => ?_, hb, htf, by simp [mkThrown]⟩
    exact absurd (hsk ▸ h) (by simp)
  | none =>
    cases hnav : pc.navigation with
    | none =>
      exact ⟨fun _ => rfl, hb, htf, by simp [mkDone, hb]⟩
    | some nv =>
      simp only [hsk, Bool.not_false, if_true]
      cases hnr : env.navResult with
      | some e =>
        refine ⟨fun h => ?_, hb, htf, by simp [mkThrown]⟩
        exact absurd (hsk ▸ h) (by simp)
      | none =>
        exact ⟨fun _ => rfl, hb, htf, by simp [mkDone, hb]⟩

lemma testPage_required_abort (env : Env) (cfg : Config) (pc : PageConfig)
    (td : String → Option String) (f : FieldSpec) (fs1 fs2 : List FieldSpec)
    (hload : env.domLoadError = none)
    (hdet : detectionPasses env pc)
    (hfields : pc.fields.getD [] = fs1 ++ f :: fs2)
    (hreq : loopIsRequired f = true)
    (hnf : waitForElement env (fieldSelectorsArg f) 10000 = none)
    (hpre : ∀ g ∈ fs1, loopIsRequired g = true → ∃ b, fillField env g td = Except.ok b) :
    (testPage env cfg pc td).result =
      Except.error ("Required field not found: " ++ f.fieldType) ∧
    (f.fieldType ++ ": " ++ ("Required field not found: " ++ f.fieldType)) ∈
      (testPage env cfg pc td).pageResult.errors ∧
    (testPage env cfg pc td).pushed = [] := by
  have hff := fillField_required_not_found env f td hreq hnf
  have habort := fieldsLoop_abort env td f fs2 ("Required field not found: " ++ f.fieldType)
    hff hreq fs1 (initPageResult pc) hpre
  rcases hL : fieldsLoop env td (fs1 ++ f :: fs2) (initPageResult pc) with ⟨pr1, ab, evs⟩
  obtain ⟨hab, hent⟩ :
      ab = some ("Required field not found: " ++ f.fieldType) ∧
      (f.fieldType ++ ": " ++ ("Required field not found: " ++ f.fieldType)) ∈ pr1.errors := by
    rw [hL] at habort; exact habort
  have hAD : afterDetection env pc td (initPageResult pc) (pc.fields.getD []) =
      mkThrown pr1 ("Required field not found: " ++ f.fieldType) evs := by
    rw [hfields]
    unfold afterDetection
    rw [hL, hab]
  have hmem : (f.fieldType ++ ": " ++ ("Required field not found: " ++ f.fieldType)) ∈
      pr1.errors ++ ["Required field not found: " ++ f.fieldType] :=
    List.mem_append.mpr (Or.inl hent)
  cases hsel : detectionSel pc with
  | none =>
    simp only [testPage, hload, hsel, hAD, mkThrown]
    refine ⟨trivial, ?_, trivial⟩
    simpa using hmem
  | some sel =>
    simp only [detectionPasses, hsel] at hdet
    obtain ⟨s, hs⟩ := hdet
    simp only [testPage, hload, hsel, hs, hAD, mkThrown]
    refine ⟨trivial, ?_, trivial⟩
    simpa using hmem

/-- C1: for an optional page whose own detection selector does not
resolve within its 5000 ms budget, when a next page (pageNumber + 1)
exists whose detection selector resolves within the 5000 ms look-ahead
budget, testPage classifies the page as skipped: it returns (and pushes)
a PageResult with skipped = true and success = true, with no field
filled and no fill or navigation action performed. -/
theorem testPage_optional_skip_via_next_detection (env : Env) (cfg : Config)
    (pc : PageConfig) (td : String → Option String) (np : PageConfig) (sel nsel : String)
    (hload : env.domLoadError = none)
    (hopt : pc.optional.getD false = true)
    (hsel : detectionSel pc = some sel)
    (hnot : waitForElement env (SelArg.list [sel]) 5000 = none)
    (hnext : findNextPage cfg pc.pageNumber = some np)
    (hnsel : detectionSel np = some nsel)
    (hfound : ∃ s, waitForElement env (SelArg.list [nsel]) 5000 = some s) :
    (testPage env cfg pc td).result = Except.ok ((testPage env cfg pc td).pageResult) ∧
    (testPage env cfg pc td).pageResult.skipped = true ∧
    (testPage env cfg pc td).pageResult.success = true ∧
    (testPage env cfg pc td).pageResult.fieldsCompleted = 0 ∧
    (testPage env cfg pc td).events = [] := by
  obtain ⟨s, hs⟩ := hfound
  have heq : testPage env cfg pc td = mkSkip (initPageResult pc) := by
    simp only [testPage, hload, hsel, hopt, if_true, hnot, hnext, hnsel, hs]
  rw [heq]
  exact ⟨rfl, rfl, rfl, rfl, rfl⟩

theorem testPage_optional_skip_witness :
    (testPage envC1 cfgC1 pcC1 tdEmpty).result =
      Except.ok ((testPage envC1 cfgC1 pcC1 tdEmpty).pageResult) ∧
    (testPage envC1 cfgC1 pcC1 tdEmpty).pageResult.skipped = true ∧
    (testPage envC1 cfgC1 pcC1 tdEmpty).pageResult.success = true ∧
    (testPage envC1 cfgC1 pcC1 tdEmpty).pageResult.fieldsCompleted = 0 ∧
    (testPage envC1 cfgC1 pcC1 tdEmpty).events = [] :=
  testPage_optional_skip_via_next_detection envC1 cfgC1 pcC1 tdEmpty npC1 "#offer" "#page3"
    rfl rfl rfl (by decide) rfl rfl ⟨"#page3", by decide⟩

/-- C2: when a required field's candidate selectors never resolve
within the 10000 ms budget, fillField raises the Required-field-not-
found error, the page's result records an error entry prefixed with the
field type, and testPage aborts, rethrowing that error as the page's
terminal error (fields before it that are required must not have
thrown, or the page would already have aborted). -/
theorem fillField_required_not_found_aborts_page (env : Env) (cfg : Config)
    (pc : PageConfig) (td : String → Option String) (f : FieldSpec)
    (fs1 fs2 : List FieldSpec)
    (hload : env.domLoadError = none)
    (hdet : detectionPasses env pc)
    (hfields : pc.fields.getD [] = fs1 ++ f :: fs2)
    (hreq : loopIsRequired f = true)
    (hnf : waitForElement env (fieldSelectorsArg f) 10000 = none)
    (hpre : ∀ g ∈ fs1, loopIsRequired g = true → ∃ b, fillField env g td = Except.ok b) :
    fillField env f td = Except.error ("Required field not found: " ++ f.fieldType) ∧
    (testPage env cfg pc td).result =
      Except.error ("Required field not found: " ++ f.fieldType) ∧
    (f.fieldType ++ ": " ++ ("Required field not found: " ++ f.fieldType)) ∈
      (testPage env cfg pc td).pageResult.errors := by
  have h := testPage_required_abort env cfg pc td f fs1 fs2 hload hdet hfields hreq hnf hpre
  exact ⟨fillField_required_not_found env f td hreq hnf, h.1, h.2.1⟩

theorem fillField_required_not_found_witness :
    fillField envNoneVis fReq tdEmpty =
      Except.error ("Required field not found: " ++ fReq.fieldType) ∧
    (testPage envNoneVis cfgC2 pcC2 tdEmpty).result =
      Except.error ("Required field not found: " ++ fReq.fieldType) ∧
    (fReq.fieldType ++ ": " ++ ("Required field not found: " ++ fReq.fieldType)) ∈
      (testPage envNoneVis cfgC2 pcC2 tdEmpty).pageResult.errors :=
  fillField_required_not_found_aborts_page envNoneVis cfgC2 pcC2 tdEmpty fReq [] []
    rfl True.intro rfl rfl (by decide) (by simp)

/-- C7: invariants of every PageResult a testPage execution produces
(the returned or thrown one, and everything pushed onto the run's
pageResults): a skipped result is a success, fieldsCompleted never
exceeds totalFields, and totalFields is the number of field specs of
the page. -/
theorem testPage_pageResult_invariants (env : Env) (cfg : Config) (pc : PageConfig)
    (td : String → Option String) :
    ((testPage env cfg pc td).pageResult.skipped = true →
      (testPage env cfg pc td).pageResult.success = true) ∧
    (testPage env cfg pc td).pageResult.fieldsCompleted ≤
      (testPage env cfg pc td).pageResult.totalFields ∧
    (testPage env cfg pc td).pageResult.totalFields = (pc.fields.getD []).length ∧
    ∀ r ∈ (testPage env cfg pc td).pushed,
      (r.skipped = true → r.success = true) ∧ r.fieldsCompleted ≤ r.totalFields := by
  have hAD := afterDetection_inv env pc td (initPageResult pc) (pc.fields.getD []) rfl rfl rfl
  simp only [testPage]
  split
  · simp [mkThrown, initPageResult]
  · split
    · exact hAD
    · split
      · exact hAD
      · split
        · split
          · split
            · split
              · simp [mkSkip, initPageResult]
              · simp [mkSkip, initPageResult]
            · simp [mkSkip, initPageResult]
          · simp [mkSkip, initPageResult]
        · split
          · simp [mkThrown, initPageResult]
          · simp [mkThrown, initPageResult]

theorem testPage_pageResult_invariants_witness :
    ((testPage envNoneVis cfgC2 pcC2 tdEmpty).pageResult.skipped = true →
      (testPage envNoneVis cfgC2 pcC2 tdEmpty).pageResult.success = true) ∧
    (testPage envNoneVis cfgC2 pcC2 tdEmpty).pageResult.fieldsCompleted ≤
      (testPage envNoneVis cfgC2 pcC2 tdEmpty).pageResult.totalFields ∧
    (testPage envNoneVis cfgC2 pcC2 tdEmpty).pageResult.totalFields =
      (pcC2.fields.getD []).length ∧
    ∀ r ∈ (testPage envNoneVis cfgC2 pcC2 tdEmpty).pushed,
      (r.skipped = true → r.success = true) ∧ r.fieldsCompleted ≤ r.totalFields :=
  testPage_pageResult_invariants envNoneVis cfgC2 pcC2 tdEmpty

/-- C4 (amended): for a run whose single page has a required field with
no matching selector, runFullTest finishes with success = false and the
Required-field-not-found message as its outcome and in the run-level
errors, but the failing page's PageResult is NOT recorded — pageResults
is empty, because testPage rethrows before its push statement — and the
failure path attempts the diagnostic screenshot exactly when the page
handle exists (a screenshot failure is swallowed: the outcome is the
field error either way). -/
theorem runFullTest_required_field_failure (renv : RunEnv) (cfg : Config)
    (td : String → Option String) (pc : PageConfig) (f : FieldSpec)
    (hinit : renv.initError = none)
    (hgoto : renv.gotoError = none)
    (hpages : cfg.pages = [pc])
    (hload : (renv.envAt 0).domLoadError = none)
    (hdet : detectionPasses (renv.envAt 0) pc)
    (hfields : pc.fields.getD [] = [f])
    (hreq : loopIsRequired f = true)
    (hnf : waitForElement (renv.envAt 0) (fieldSelectorsArg f) 10000 = none) :
    (runFullTest renv cfg td).testResults.success = false ∧
    (runFullTest renv cfg td).testResults.pageResults = [] ∧
    (runFullTest renv cfg td).outcome =
      Except.error ("Required field not found: " ++ f.fieldType) ∧
    ("Required field not found: " ++ f.fieldType) ∈
      (runFullTest renv cfg td).testResults.errors ∧
    (runFullTest renv cfg td).screenshotAttempted = renv.pageExists := by
  have h := testPage_required_abort (renv.envAt 0) cfg pc td f [] [] hload hdet
    (by simpa using hfields) hreq hnf (by simp)
  simp only [runFullTest, hinit, hgoto, hpages]
  simp only [pagesLoop, Bool.false_eq_true, if_false, h.1, h.2.2]
  simp [mkRunFailure]

theorem runFullTest_required_field_failure_witness :
    (runFullTest renvC4 cfgC2 tdEmpty).testResults.success = false ∧
    (runFullTest renvC4 cfgC2 tdEmpty).testResults.pageResults = [] ∧
    (runFullTest renvC4 cfgC2 tdEmpty).outcome =
      Except.error ("Required field not found: " ++ fReq.fieldType) ∧
    ("Required field not found: " ++ fReq.fieldType) ∈
      (runFullTest renvC4 cfgC2 tdEmpty).testResults.errors ∧
    (runFullTest renvC4 cfgC2 tdEmpty).screenshotAttempted = renvC4.pageExists :=
  runFullTest_required_field_failure renvC4 cfgC2 tdEmpty pcC2 fReq
    rfl rfl rfl rfl True.intro rfl rfl (by decide)

/-- C4 counterexample to the claim as stated: in the one-page run whose
required field never resolves, the finished run holds zero PageResults,
not exactly one — the failing page's result is never pushed. -/
theorem runFullTest_failure_records_no_pageresult :
    (runFullTest renvC4 cfgC2 tdEmpty).testResults.pageResults.length = 0 ∧
    (runFullTest renvC4 cfgC2 tdEmpty).testResults.success = false ∧
    (runFullTest renvC4 cfgC2 tdEmpty).outcome =
      Except.error "Required field not found: firstName" :=
  ⟨rfl, rfl, rfl⟩

/-- C5 (amended): for an optional field with neither a resolving
selector nor a data value, the hardened fillField returns false without
raising and the field loop leaves fieldsCompleted unchanged; the first
revision's fillField and the part_000 fillField instead return true in
the same situation, so their callers count the skipped field as
completed. -/
theorem fillField_optional_missing_selector_and_data (env : Env) (f : FieldSpec)
    (td : String → Option String) (pr : PageResult) (g : FieldSpec0) (env0 : Env)
    (td0 : String → Option String)
    (hopt : fieldIsOptional f = true)
    (hnf : waitForElement env (fieldSelectorsArg f) 10000 = none)
    (hdata : isFalsy (td f.fieldType) = true)
    (hnf1 : waitForElement env (fieldSelectorsArgV1 f) 3000 = none)
    (hg : g.optional.getD false = true)
    (hg2 : p0waitForElement env0 g.selector 3000 = false) :
    fillField env f td = Except.ok false ∧
    (fieldsLoop env td [f] pr).1.fieldsCompleted = pr.fieldsCompleted ∧
    fillFieldV1 env f td = Except.ok true ∧
    p0fillField env0 g td0 = Except.ok true := by
  have h1 : fillField env f td = Except.ok false := by simp [fillField, hnf, hopt]
  refine ⟨h1, ?_, ?_, ?_⟩
  · simp [fieldsLoop, h1]
  · have hv1 := actuallyRequiredV1_of_isOptional f hopt
    simp [fillFieldV1, hv1, hnf1]
  · simp [p0fillField, hg, hg2]

theorem fillField_optional_missing_witness :
    fillField envNoneVis f5 tdEmpty = Except.ok false ∧
    (fieldsLoop envNoneVis tdEmpty [f5] (initPageResult pcC1)).1.fieldsCompleted =
      (initPageResult pcC1).fieldsCompleted ∧
    fillFieldV1 envNoneVis f5 tdEmpty = Except.ok true ∧
    p0fillField envNoneVis g5 tdEmpty = Except.ok true :=
  fillField_optional_missing_selector_and_data envNoneVis f5 tdEmpty
    (initPageResult pcC1) g5 envNoneVis tdEmpty
    rfl (by decide) rfl (by decide) rfl (by decide)

/-- C5 counterexample to the claim as stated: the first-revision
fillField returns true — not false — for an optional field whose
selector never resolves and whose data value is missing. -/
theorem fillFieldV1_optional_missing_returns_true :
    fillFieldV1 envNoneVis f5 tdEmpty = Except.ok true ∧
    fieldIsOptional f5 = true ∧
    waitForElement envNoneVis (fieldSelectorsArgV1 f5) 3000 = none ∧
    isFalsy (tdEmpty f5.fieldType) = true :=
  ⟨rfl, rfl, rfl, rfl⟩

lemma redirectLoop_succ (env : REnv) (mwt fuel : Nat) (url : String) (count : Nat) :
    redirectLoop env mwt (fuel + 1) url count =
      if wrapperGuard url && decide (count < 15) && decide (env.elapsed count < mwt) then
        if env.natUrl count ≠ url then
          if includesS (env.natUrl count) "opph3hftrk.com" then some (env.natUrl count, count)
          else redirectLoop env mwt fuel (env.natUrl count) (count + 1)
        else
          match env.linkResult count with
          | some u => some (u, count)
          | none => redirectLoop env mwt fuel url (count + 1)
      else some (url, count) := rfl

lemma redirectLoop_ne_none (env : REnv) (mwt : Nat) :
    ∀ (fuel count : Nat) (url : String), 15 ≤ count + fuel →
      redirectLoop env mwt (fuel + 1) url count ≠ none := by
  intro fuel
  induction fuel with
  | zero =>
    intro count url h
    have h15 : ¬ (count < 15) := by omega
    rw [redirectLoop_succ]
    simp [h15]
  | succ n ih =>
    intro count url h
    rw [redirectLoop_succ]
    split
    · by_cases hne : env.natUrl count ≠ url
      · rw [if_pos hne]
        split
        · simp
        · exact ih (count + 1) _ (by omega)
      · rw [if_neg hne]
        split
        · simp
        · exact ih (count + 1) _ (by omega)
    · simp

lemma redirectLoop_count_le (env : REnv) (mwt : Nat) :
    ∀ (fuel count : Nat) (url u : String) (c : Nat), count ≤ 15 →
      redirectLoop env mwt fuel url count = some (u, c) → c ≤ 15 := by
  intro fuel
  induction fuel with
  | zero =>
    intro count url u c h hc
    simp [redirectLoop] at hc
  | succ n ih =>
    intro count url u c h hc
    rw [redirectLoop_succ] at hc
    by_cases hg : (wrapperGuard url && decide (count < 15) &&
        decide (env.elapsed count < mwt)) = true
    · rw [if_pos hg] at hc
      simp only [Bool.and_eq_true, decide_eq_true_eq] at hg
      obtain ⟨⟨-, hlt⟩, -⟩ := hg
      split at hc
      · split at hc
        · simp only [Option.some.injEq, Prod.mk.injEq] at hc
          omega
        · exact ih (count + 1) _ u c (by omega) hc
      · split at hc
        · simp only [Option.some.injEq, Prod.mk.injEq] at hc
          omega
        · exact ih (count + 1) _ u c (by omega) hc
    · rw [if_neg hg] at hc
      simp only [Option.some.injEq, Prod.mk.injEq] at hc
      omega

/-- C6: the redirect loop always terminates — the embedding completes
on fuel 16 for every oracle — with a hop count of at most maxRedirects
= 15 iterations, exits immediately once the wall-clock budget is
exhausted, and when the URL read after the loop is still a facebook URL
that is not on the target domain, the function raises the distinct
redirect-chain error instead of returning normally. -/
theorem handleFacebookRedirects_terminates_and_raises (env : REnv) (mwt : Nat)
    (hfb : includesS env.postLoopUrl "facebook.com" = true)
    (hnt : includesS env.postLoopUrl "opph3hftrk.com" = false) :
    (∀ (e2 : REnv) (m2 : Nat), ∃ out c,
        handleFacebookRedirectsAggressively e2 m2 = some (out, c) ∧ c ≤ 15 ∧
        (m2 ≤ e2.elapsed 0 → c = 0)) ∧
    ∃ c, handleFacebookRedirectsAggressively env mwt =
        some (Except.error "Facebook redirect chain did not reach target domain", c) := by
  have hterm : ∀ (e2 : REnv) (m2 : Nat), ∃ u c,
      redirectLoop e2 m2 16 e2.initialUrl 0 = some (u, c) ∧ c ≤ 15 ∧
      (m2 ≤ e2.elapsed 0 → c = 0) := by
    intro e2 m2
    have hne := redirectLoop_ne_none e2 m2 15 0 e2.initialUrl (by omega)
    cases hr : redirectLoop e2 m2 16 e2.initialUrl 0 with
    | none => exact absurd hr hne
    | some p =>
      obtain ⟨u, c⟩ := p
      refine ⟨u, c, rfl, ?_, ?_⟩
      · exact redirectLoop_count_le e2 m2 16 0 e2.initialUrl u c (by omega) hr
      · intro hel
        have hstop : redirectLoop e2 m2 16 e2.initialUrl 0 = some (e2.initialUrl, 0) := by
          rw [redirectLoop_succ]
          have hn : ¬ (e2.elapsed 0 < m2) := by omega
          simp [hn]
        rw [hstop] at hr
        simp only [Option.some.injEq, Prod.mk.injEq] at hr
        omega
  constructor
  · intro e2 m2
    obtain ⟨u, c, hr, hc, he⟩ := hterm e2 m2
    unfold handleFacebookRedirectsAggressively
    rw [hr]
    dsimp only
    by_cases hcond : (!(includesS e2.postLoopUrl "opph3hftrk.com") &&
        includesS e2.postLoopUrl "facebook.com") = true
    · exact ⟨Except.error "Facebook redirect chain did not reach target domain", c,
        by rw [if_pos hcond], hc, he⟩
    · exact ⟨Except.ok e2.postLoopUrl, c, by rw [if_neg hcond], hc, he⟩
  · obtain ⟨u, c, hr, -, -⟩ := hterm env mwt
    refine ⟨c, ?_⟩
    unfold handleFacebookRedirectsAggressively
    rw [hr]
    dsimp only
    rw [if_pos (by rw [hfb, hnt]; rfl)]

theorem handleFacebookRedirects_witness :
    ∃ c, handleFacebookRedirectsAggressively envR6 45000 =
        some (Except.error "Facebook redirect chain did not reach target domain", c) :=
  (handleFacebookRedirects_terminates_and_raises envR6 45000 (by decide) (by decide)).2

lemma urlLoopAux_unchanged (env : NavEnv) (cur : String)
    (h4 : ∀ k, env.urlAt k = cur) (h5 : ∀ k, env.clickError k = none) (k : Nat) :
    urlLoopAux env cur true 3 3 0 k = (Except.ok false, k + 2) := by
  simp [urlLoopAux, h4, h5]

/-- C8 (amended): with waitForUrlChange and retryIfNoNavigation set and
a URL that never changes, the click is attempted three times in total
in the first revision's URL-verification phase (the navigation click
plus two retries, clicks 3 with a non-facebook origin where the
Expected-URL-change error is then raised, 4 on the facebook fall-through
path where the unchanged URL is tolerated and the call succeeds); the
part_000 revision raises the Expected-URL-change error after the same
three attempts regardless of the origin host. -/
theorem navigateToNextPage_urlchange_policy (env : NavEnv) (nav nav0 : NavigationSpec)
    (s : String)
    (h1 : nav.waitForUrlChange = some true)
    (h2 : nav.retryIfNoNavigation = some true)
    (h3 : waitForElement env.wenv (navSelectorsArg nav) 10000 = some s)
    (h4 : ∀ k, env.urlAt k = env.currentUrl)
    (h5 : ∀ k, env.clickError k = none)
    (h6 : nav0.waitForUrlChange = some true)
    (h7 : nav0.retryIfNoNavigation = some true) :
    (includesS env.currentUrl "facebook.com" = false →
      navigateToNextPageV1 env nav =
        (Except.error "Expected URL change but none occurred", 3)) ∧
    (includesS env.currentUrl "facebook.com" = true → env.fbNewTab = false →
      navigateToNextPageV1 env nav = (Except.ok true, 4)) ∧
    p0navigateToNextPage env nav0 =
      (Except.error "Expected URL change but none occurred", 3) := by
  have hu := urlLoopAux_unchanged env env.currentUrl h4 h5
  refine ⟨?_, ?_, ?_⟩
  · intro hfb
    simp [navigateToNextPageV1, h3, hfb, h5, urlChangePhaseV1, h1, h2, hu 1]
  · intro hfb hnt
    simp [navigateToNextPageV1, h3, hfb, hnt, h5, urlChangePhaseV1, h1, h2, hu 2]
  · simp [p0navigateToNextPage, h5, h6, h7, hu 1]

theorem navigateToNextPage_urlchange_witness :
    navigateToNextPageV1 envNavW navW =
      (Except.error "Expected URL change but none occurred", 3) :=
  (navigateToNextPage_urlchange_policy envNavW navW navW "#zip" rfl rfl (by decide)
    (fun _ => rfl) (fun _ => rfl) rfl rfl).1 (by decide)

/-- C8 counterexample to the claim as stated: the part_000 revision
raises the Expected-URL-change error even when the origin URL is on the
facebook wrapper host, so the unchanged URL is not tolerated there. -/
theorem p0_navigateToNextPage_errors_on_wrapper_host :
    p0navigateToNextPage envNavFB navW =
      (Except.error "Expected URL change but none occurred", 3) ∧
    includesS envNavFB.currentUrl "facebook.com" = true :=
  ⟨rfl, rfl⟩

/-- C9: the run-result file name is not distinct on failure: because
neither test-results.json nor failed-test-results.json contains the
substring browser, saveResults rebuilds both names from the BROWSER
environment variable and Date.now(), so a failed run and a successful
run with the same browser and timestamp write the same file name and
the explicit failed-test-results.json argument is discarded. -/
theorem saveResults_failure_name_not_distinct :
    (∀ (b : Option String) (t : Nat),
      runTestSavedName true b t = runTestSavedName false b t) ∧
    runTestSavedName true none 1730000000000 =
      "test-results-chromium-1730000000000.json" ∧
    runTestSavedName false none 1730000000000 =
      "test-results-chromium-1730000000000.json" := by
  have e1 : includesS "failed-test-results.json" "browser" = false := by decide
  have e2 : includesS "test-results.json" "browser" = false := by decide
  refine ⟨?_, ?_, ?_⟩
  · intro b t
    show saveResultsName "failed-test-results.json" b t =
      saveResultsName "test-results.json" b t
    unfold saveResultsName
    rw [e1, e2]
    simp
  · rfl
  · rfl
